import Mathlib

/-!
Shallow embedding of the Cosmos Journeyer mission core:
the fly-by mission node (`MissionFlyByNode` from the mission node source file)
and the contact-station selection of `generateMissionsDom`
(`src/ts/ui/spaceStation/spaceStationMissions.ts`).

Numbers that TypeScript represents as IEEE doubles are modelled as exact
rationals (`ℚ`).  The source compares the Euclidean distance
`Vector3.Distance(p, q)` with a nonnegative threshold; over `ℚ` we carry the
squared distance and compare it with the squared threshold, which agrees with
the source whenever the threshold is nonnegative because squaring is strictly
monotone on nonnegative numbers.
-/

namespace CosmosJourneyer

/-- Modelled from the spec: `StarSystemCoordinates` identifies a star system
by galactic sector/position indices; it is a value type with equality by
structural comparison.  (`starSystemCoordinatesEquals` is imported by the
mission node source file from a coordinates module that is not among the
excerpted sources.) -/
structure StarSystemCoordinates where
  starSectorX : Int
  starSectorY : Int
  starSectorZ : Int
  localX : Int
  localY : Int
  localZ : Int
  deriving DecidableEq, Repr

/-- Modelled from the spec: structural equality on `StarSystemCoordinates`. -/
def starSystemCoordinatesEquals (a b : StarSystemCoordinates) : Bool :=
  a = b

/-- Modelled from the spec: `UniverseObjectId` is a composite of a
`StarSystemCoordinates` plus an in-system object index/path; equality is
structural comparison across both parts.  (`universeObjectIdEquals` is
imported by the mission node source file from a module that is not among the
excerpted sources.) -/
structure UniverseObjectId where
  starSystemCoordinates : StarSystemCoordinates
  objectPath : List Nat
  deriving DecidableEq, Repr

/-- Modelled from the spec: structural equality on `UniverseObjectId`. -/
def universeObjectIdEquals (a b : UniverseObjectId) : Bool :=
  a = b

/-- The orbital object types named by the threshold `switch` of
`MissionFlyByNode.updateState`, plus `OTHER`, which stands for the members of
the full `OrbitalObjectType` enum that the excerpted sources do not name
(modelled from the spec: the threshold lookup defaults to 1 for every other
object type). -/
inductive OrbitalObjectType where
  | STAR
  | NEUTRON_STAR
  | BLACK_HOLE
  | TELLURIC_PLANET
  | TELLURIC_SATELLITE
  | GAS_PLANET
  | MANDELBULB
  | JULIA_SET
  | SPACE_STATION
  | SPACE_ELEVATOR
  | OTHER (tag : Nat)
  deriving DecidableEq, Repr

/-- A 3-component vector, as used for player and object positions. -/
structure Vector3 where
  x : ℚ
  y : ℚ
  z : ℚ
  deriving DecidableEq, Repr

/-- Squared Euclidean distance between two vectors.  The source computes
`Vector3.Distance` (the Euclidean norm of the difference); over `ℚ` we carry
its square. -/
def Vector3.DistanceSquared (a b : Vector3) : ℚ :=
  (a.x - b.x) ^ 2 + (a.y - b.y) ^ 2 + (a.z - b.z) ^ 2

/-- The part of `OrbitalObjectModel` that `updateState` consumes: the type
tag (`targetObject.model.type`). -/
structure OrbitalObjectModel where
  type : OrbitalObjectType
  deriving DecidableEq, Repr

/-- A live orbital object as consumed by `updateState`: its identifier, its
absolute position (`getTransform().getAbsolutePosition()`), its bounding
radius (`getBoundingRadius()`), and its descriptive model (`model`). -/
structure SystemObject where
  id : UniverseObjectId
  absolutePosition : Vector3
  boundingRadius : ℚ
  model : OrbitalObjectModel
  deriving DecidableEq, Repr

/-- The part of a star system model that `updateState` consumes:
`currentSystemModel.coordinates`. -/
structure StarSystemModel where
  coordinates : StarSystemCoordinates
  deriving DecidableEq, Repr

/-- A loaded star system instance: its model and the live objects it
contains. -/
structure StarSystemController where
  model : StarSystemModel
  objects : List SystemObject
  deriving DecidableEq, Repr

/-- `MissionContext`: ephemeral read-only view of the live world, supplying
the current system and the player position. -/
structure MissionContext where
  currentSystem : StarSystemController
  playerPosition : Vector3
  deriving DecidableEq, Repr

/-- Modelled from the spec: `getObjectBySystemId(id, liveSystem)` returns the
live object instance, or a failure signal (here `none`, `null` in the source)
if the id's local path does not match anything in that system.  (The function
is imported by the mission node source file from a module that is not among
the excerpted sources.) -/
def getObjectBySystemId (id : UniverseObjectId) (sys : StarSystemController) :
    Option SystemObject :=
  sys.objects.find? (fun o => universeObjectIdEquals o.id id)

/-- The fly-by state machine states (const enum `FlyByState`). -/
inductive FlyByState where
  | NOT_IN_SYSTEM
  | TOO_FAR_IN_SYSTEM
  | CLOSE_ENOUGH
  deriving DecidableEq, Repr

/-- The mission node type tags; `FLY_BY` is the one the excerpted sources
use, `OTHER` stands for the tags of the sibling variants that the spec says
exist but the excerpted sources do not show. -/
inductive MissionNodeType where
  | FLY_BY
  | OTHER (tag : Nat)
  deriving DecidableEq, Repr

/-- The persisted mission record
`{type, children: [MissionNodeSerialized], objectId, state}`.  For the fly-by
variant the `objectId` and `state` fields are the meaningful extra fields, as
in `MissionFlyByNodeSerialized`. -/
inductive MissionNodeSerialized where
  | mk (type : MissionNodeType) (children : List MissionNodeSerialized)
      (objectId : UniverseObjectId) (state : FlyByState)

/-- The `type` field of a serialized mission record. -/
def MissionNodeSerialized.type : MissionNodeSerialized → MissionNodeType
  | .mk t _ _ _ => t

/-- The `children` field of a serialized mission record. -/
def MissionNodeSerialized.children : MissionNodeSerialized → List MissionNodeSerialized
  | .mk _ c _ _ => c

/-- The `objectId` field of a serialized mission record. -/
def MissionNodeSerialized.objectId : MissionNodeSerialized → UniverseObjectId
  | .mk _ _ o _ => o

/-- The `state` field of a serialized mission record. -/
def MissionNodeSerialized.state : MissionNodeSerialized → FlyByState
  | .mk _ _ _ s => s

/-- `MissionFlyByNode`: mutable `state`, read-only `objectId` and
`targetSystemCoordinates`. -/
structure MissionFlyByNode where
  state : FlyByState
  objectId : UniverseObjectId
  targetSystemCoordinates : StarSystemCoordinates
  deriving DecidableEq, Repr

/-- The constructor `new MissionFlyByNode(objectId)`: state starts at
`NOT_IN_SYSTEM`, `targetSystemCoordinates` is taken from
`objectId.starSystemCoordinates`. -/
def MissionFlyByNode.new (objectId : UniverseObjectId) : MissionFlyByNode :=
  { state := FlyByState.NOT_IN_SYSTEM
    objectId := objectId
    targetSystemCoordinates := objectId.starSystemCoordinates }

/-- `setState`: overwrite the fly-by state (used when deserializing an
ongoing mission). -/
def MissionFlyByNode.setState (n : MissionFlyByNode) (state : FlyByState) :
    MissionFlyByNode :=
  { n with state := state }

/-- `isCompleted()`: the node is completed exactly when its state is
`CLOSE_ENOUGH`. -/
def MissionFlyByNode.isCompleted (n : MissionFlyByNode) : Bool :=
  n.state = FlyByState.CLOSE_ENOUGH

/-- Modelled from the spec: `MissionNode` is polymorphic over variants
{FlyBy, ...other unseen variants}; the sibling variants the excerpted sources
do not show are represented abstractly by a tag. -/
inductive MissionNode where
  | flyBy (node : MissionFlyByNode)
  | otherVariant (tag : Nat)
  deriving DecidableEq, Repr

/-- `equals(other)`: false unless `other instanceof MissionFlyByNode`,
otherwise `universeObjectIdEquals(this.objectId, other.objectId)`. -/
def MissionFlyByNode.equals (n : MissionFlyByNode) (other : MissionNode) : Bool :=
  match other with
  | .flyBy m => universeObjectIdEquals n.objectId m.objectId
  | .otherVariant _ => false

/-- The `switch (targetObject.model.type)` block of `updateState`:
`thresholdMultiplier` starts at 1 and is set to 3, 50 or 10 on the listed
cases. -/
def thresholdMultiplier : OrbitalObjectType → ℚ
  | .STAR => 3
  | .TELLURIC_PLANET => 3
  | .TELLURIC_SATELLITE => 3
  | .GAS_PLANET => 3
  | .MANDELBULB => 3
  | .JULIA_SET => 3
  | .SPACE_STATION => 3
  | .SPACE_ELEVATOR => 3
  | .NEUTRON_STAR => 50
  | .BLACK_HOLE => 10
  | .OTHER _ => 1

/-- `updateState(context)`.  The source mutates `this.state` and `throw`s
when the target object cannot be resolved; here the new node is returned in
`Except`, with `Except.error` standing for the thrown `Error`.  The distance
comparison `distance < distanceThreshold` is carried out on squares (see the
file comment). -/
def MissionFlyByNode.updateState (n : MissionFlyByNode) (context : MissionContext) :
    Except String MissionFlyByNode :=
  if n.isCompleted then Except.ok n
  else
    let currentSystem := context.currentSystem
    let currentSystemModel := currentSystem.model
    if ¬ starSystemCoordinatesEquals currentSystemModel.coordinates n.targetSystemCoordinates then
      Except.ok { n with state := FlyByState.NOT_IN_SYSTEM }
    else
      match getObjectBySystemId n.objectId currentSystem with
      | none => Except.error "Could not find object with ID"
      | some targetObject =>
        let playerPosition := context.playerPosition
        let distanceSquared :=
          Vector3.DistanceSquared playerPosition targetObject.absolutePosition
        let distanceThreshold :=
          targetObject.boundingRadius * thresholdMultiplier targetObject.model.type
        if distanceSquared < distanceThreshold ^ 2 then
          Except.ok { n with state := FlyByState.CLOSE_ENOUGH }
        else
          Except.ok { n with state := FlyByState.TOO_FAR_IN_SYSTEM }

/-- `getTargetSystems()`: the one-element list holding the target system
coordinates. -/
def MissionFlyByNode.getTargetSystems (n : MissionFlyByNode) : List StarSystemCoordinates :=
  [n.targetSystemCoordinates]

/-- `serialize()`: the record `{type: FLY_BY, children: [], objectId, state}`. -/
def MissionFlyByNode.serialize (n : MissionFlyByNode) : MissionNodeSerialized :=
  MissionNodeSerialized.mk MissionNodeType.FLY_BY [] n.objectId n.state

/-- Modelled from the spec: deserializing a fly-by record constructs a
`MissionFlyByNode` from `m.objectId` and applies `setState(m.state)` (the
dispatching deserializer is not among the excerpted sources). -/
def deserializeFlyBy (m : MissionNodeSerialized) : MissionFlyByNode :=
  (MissionFlyByNode.new m.objectId).setState m.state

/-- The orbital facility data consumed by the contact-station selection of
`generateMissionsDom`: the station seed, its faction and its system
coordinates. -/
structure OrbitalFacilityModel where
  seed : Int
  faction : Nat
  starSystemCoordinates : StarSystemCoordinates
  deriving DecidableEq, Repr

/-- Modelled from the spec: `uniformRandBool(p, rng, step)` (from the
`extended-random` package, not part of this repository) performs the
deterministic draw `rng(step)` in `[0, 1)` and succeeds with probability `p`,
that is, exactly when the draw falls below `p`. -/
def uniformRandBool (p : ℚ) (rng : Nat → ℚ) (step : Nat) : Bool :=
  rng step < p

/-- The acceptance probability `1.0 / (1.0 + 0.02 * (distance * distance))`
used to prune the neighbor-station candidates. -/
def acceptProbability (distance : ℚ) : ℚ :=
  1 / (1 + 0.02 * (distance * distance))

/-- The contact-station selection of `generateMissionsDom`: starting from the
neighbor-station candidates `[station, distance][]`, prune the list randomly
based on distance with `uniformRandBool(1.0 / (1.0 + 0.02 * d * d), rng, 325 +
index)`, keep only the stations whose faction equals the offering station's,
and sort ascending by distance (`sort((a, b) => a[1] - b[1])`, a stable sort
embedded as insertion sort).  In the source `rng` is `getRngFromSeed(
stationModel.seed)`, a deterministic function of the station seed; here it is
a parameter, each call drawing `rng (325 + index)` in `[0, 1)`. -/
def contactStations (stationModel : OrbitalFacilityModel) (rng : Nat → ℚ)
    (neighborSpaceStations : List (OrbitalFacilityModel × ℚ)) :
    List (OrbitalFacilityModel × ℚ) :=
  let pruned :=
    (neighborSpaceStations.enum.filter
      (fun p => uniformRandBool (1 / (1 + 0.02 * (p.2.2 * p.2.2))) rng (325 + p.1))).map
      Prod.snd
  let sameFaction := pruned.filter (fun p => p.1.faction == stationModel.faction)
  List.insertionSort (fun a b => a.2 ≤ b.2) sameFaction

/-- The nodes that arise from the public interface of `MissionFlyByNode`: a
freshly constructed node, followed by any sequence of `setState` and
successful `updateState` calls. -/
inductive MissionFlyByNode.Reachable : MissionFlyByNode → Prop where
  | construct (objectId : UniverseObjectId) : Reachable (MissionFlyByNode.new objectId)
  | set (n : MissionFlyByNode) (s : FlyByState) : Reachable n → Reachable (n.setState s)
  | update (n : MissionFlyByNode) (ctx : MissionContext) (n' : MissionFlyByNode) :
      Reachable n → n.updateState ctx = Except.ok n' → Reachable n'

/-! ### Concrete fixtures shared by the witnesses and counterexamples -/

/-- Coordinates of the target system of the example missions. -/
def coordsA : StarSystemCoordinates := ⟨0, 0, 0, 0, 0, 0⟩

/-- Coordinates of a structurally different star system. -/
def coordsB : StarSystemCoordinates := ⟨1, 0, 0, 0, 0, 0⟩

/-- An object id in system `coordsA` with local path `[0]`. -/
def idA : UniverseObjectId := ⟨coordsA, [0]⟩

/-- An object id with the same system coordinates as `idA` but a different
local object path. -/
def idB : UniverseObjectId := ⟨coordsA, [1]⟩

/-- A star with bounding radius 1 sitting at the origin of system `coordsA`,
registered under `idA`. -/
def starObj : SystemObject := ⟨idA, ⟨0, 0, 0⟩, 1, ⟨OrbitalObjectType.STAR⟩⟩

/-- The loaded system `coordsA` containing exactly `starObj`. -/
def sysA : StarSystemController := ⟨⟨coordsA⟩, [starObj]⟩

/-- Player in system `coordsA` at distance `2.9` (that is `2.9 × R` for the
star's bounding radius `R = 1`) from `starObj`. -/
def ctx29 : MissionContext := ⟨sysA, ⟨2.9, 0, 0⟩⟩

/-- Player in system `coordsA` at distance `3.1` from `starObj`. -/
def ctx31 : MissionContext := ⟨sysA, ⟨3.1, 0, 0⟩⟩

/-- Player far away in the structurally different system `coordsB`. -/
def ctxWrong : MissionContext := ⟨⟨⟨coordsB⟩, []⟩, ⟨1000000, 0, 0⟩⟩

/-- Player in system `coordsA` when the loaded system contains no objects, so
`idA` cannot be resolved. -/
def ctxEmptyA : MissionContext := ⟨⟨⟨coordsA⟩, []⟩, ⟨0, 0, 0⟩⟩

/-- A fly-by node targeting `idA` that has already reached `CLOSE_ENOUGH`. -/
def nodeClose : MissionFlyByNode := (MissionFlyByNode.new idA).setState FlyByState.CLOSE_ENOUGH

/-- A serialized fly-by record with no children, as `serialize` produces. -/
def recordNoChildren : MissionNodeSerialized :=
  MissionNodeSerialized.mk MissionNodeType.FLY_BY [] idA FlyByState.TOO_FAR_IN_SYSTEM

/-- A record of fly-by shape whose `children` list is nonempty. -/
def recordWithChild : MissionNodeSerialized :=
  MissionNodeSerialized.mk MissionNodeType.FLY_BY [recordNoChildren] idA
    FlyByState.TOO_FAR_IN_SYSTEM


/-- A station model of faction 0 in system `coordsA`, offering missions. -/
def stHome : OrbitalFacilityModel := ⟨10, 0, coordsA⟩

/-- A neighbor station of the same faction as `stHome`. -/
def stSame : OrbitalFacilityModel := ⟨11, 0, coordsB⟩

/-- A neighbor station of a different faction. -/
def stOther : OrbitalFacilityModel := ⟨12, 1, coordsB⟩

/-- Two neighbor-station candidates at distances 1 and 2 light years. -/
def exCands : List (OrbitalFacilityModel × ℚ) := [(stSame, 1), (stOther, 2)]

/-- A deterministic draw function whose every draw is `1/2`. -/
def rngHalf : Nat → ℚ := fun _ => 1 / 2

/-- A draw function agreeing with `rngHalf` on every step the contact-station
selection draws (`325 + index`) but differing below step 325. -/
def rngHalfLate : Nat → ℚ := fun i => if i < 325 then 0 else 1 / 2

/-- Ordering pairs of stations by their distance component is total. -/
instance : IsTotal (OrbitalFacilityModel × ℚ) (fun a b => a.2 ≤ b.2) :=
  ⟨fun a b => le_total a.2 b.2⟩

/-- Ordering pairs of stations by their distance component is transitive. -/
instance : IsTrans (OrbitalFacilityModel × ℚ) (fun a b => a.2 ≤ b.2) :=
  ⟨fun _ _ _ h h' => le_trans h h'⟩

/-! ### Equation lemmas for `updateState`, one per control-flow path -/

/-- A completed node returns immediately, unchanged. -/
theorem MissionFlyByNode.updateState_completed (n : MissionFlyByNode) (ctx : MissionContext)
    (h : n.state = FlyByState.CLOSE_ENOUGH) : n.updateState ctx = Except.ok n := by
  simp [MissionFlyByNode.updateState, MissionFlyByNode.isCompleted, h]

/-- A not-completed node in the wrong system moves to `NOT_IN_SYSTEM`. -/
theorem MissionFlyByNode.updateState_wrongSystem (n : MissionFlyByNode) (ctx : MissionContext)
    (h1 : n.state ≠ FlyByState.CLOSE_ENOUGH)
    (h2 : starSystemCoordinatesEquals ctx.currentSystem.model.coordinates
        n.targetSystemCoordinates = false) :
    n.updateState ctx = Except.ok (n.setState FlyByState.NOT_IN_SYSTEM) := by
  simp [MissionFlyByNode.updateState, MissionFlyByNode.isCompleted, h1, h2,
    MissionFlyByNode.setState]

/-- A not-completed node in the right system whose target cannot be resolved
makes `updateState` throw. -/
theorem MissionFlyByNode.updateState_missingObject (n : MissionFlyByNode) (ctx : MissionContext)
    (h1 : n.state ≠ FlyByState.CLOSE_ENOUGH)
    (h2 : starSystemCoordinatesEquals ctx.currentSystem.model.coordinates
        n.targetSystemCoordinates = true)
    (h3 : getObjectBySystemId n.objectId ctx.currentSystem = none) :
    n.updateState ctx = Except.error "Could not find object with ID" := by
  simp [MissionFlyByNode.updateState, MissionFlyByNode.isCompleted, h1, h2, h3]

/-- A not-completed node in the right system with a resolved target compares
the (squared) distance with the (squared) type-dependent threshold. -/
theorem MissionFlyByNode.updateState_found (n : MissionFlyByNode) (ctx : MissionContext)
    (obj : SystemObject)
    (h1 : n.state ≠ FlyByState.CLOSE_ENOUGH)
    (h2 : starSystemCoordinatesEquals ctx.currentSystem.model.coordinates
        n.targetSystemCoordinates = true)
    (h3 : getObjectBySystemId n.objectId ctx.currentSystem = some obj) :
    n.updateState ctx = Except.ok (n.setState
      (if Vector3.DistanceSquared ctx.playerPosition obj.absolutePosition <
          (obj.boundingRadius * thresholdMultiplier obj.model.type) ^ 2
        then FlyByState.CLOSE_ENOUGH else FlyByState.TOO_FAR_IN_SYSTEM)) := by
  simp [MissionFlyByNode.updateState, MissionFlyByNode.isCompleted, h1, h2, h3,
    MissionFlyByNode.setState]
  split <;> rfl

/-- `setState` writes exactly the given state. -/
theorem MissionFlyByNode.setState_state (n : MissionFlyByNode) (s : FlyByState) :
    (n.setState s).state = s := rfl

/-- A successful `updateState` changes at most the `state` field: `objectId`
and `targetSystemCoordinates` are preserved. -/
theorem MissionFlyByNode.updateState_ok_fields (n : MissionFlyByNode) (ctx : MissionContext)
    (n' : MissionFlyByNode) (h : n.updateState ctx = Except.ok n') :
    n'.objectId = n.objectId ∧ n'.targetSystemCoordinates = n.targetSystemCoordinates := by
  by_cases h1 : n.state = FlyByState.CLOSE_ENOUGH
  · rw [MissionFlyByNode.updateState_completed n ctx h1] at h
    injection h with h; subst h; exact ⟨rfl, rfl⟩
  · by_cases h2 : starSystemCoordinatesEquals ctx.currentSystem.model.coordinates
        n.targetSystemCoordinates = true
    · cases hobj : getObjectBySystemId n.objectId ctx.currentSystem with
      | none =>
        rw [MissionFlyByNode.updateState_missingObject n ctx h1 h2 hobj] at h
        exact absurd h (by simp)
      | some obj =>
        rw [MissionFlyByNode.updateState_found n ctx obj h1 h2 hobj] at h
        injection h with h; subst h; exact ⟨rfl, rfl⟩
    · have h2' : starSystemCoordinatesEquals ctx.currentSystem.model.coordinates
          n.targetSystemCoordinates = false := by simpa using h2
      rw [MissionFlyByNode.updateState_wrongSystem n ctx h1 h2'] at h
      injection h with h; subst h; exact ⟨rfl, rfl⟩


/-- The acceptance probability `1 / (1 + 0.02 d²)` is non-increasing in the
distance on nonnegative distances. -/
theorem acceptProbability_antitone (d1 d2 : ℚ) (h0 : 0 ≤ d1) (h12 : d1 < d2) :
    acceptProbability d2 ≤ acceptProbability d1 := by
  unfold acceptProbability
  have h1 : (0 : ℚ) < 1 + 0.02 * (d1 * d1) := by nlinarith
  have h2 : 1 + 0.02 * (d1 * d1) ≤ 1 + 0.02 * (d2 * d2) := by nlinarith
  exact one_div_le_one_div_of_le h1 h2

/-- The contact-station selection draws only the steps `325 + index` for the
candidate indices, so any two draw functions agreeing there produce the same
output — in particular reloading with the same station seed reproduces the
same retained set. -/
theorem contactStations_rng_congr (st : OrbitalFacilityModel) (rng rng' : Nat → ℚ)
    (cands : List (OrbitalFacilityModel × ℚ))
    (h : ∀ i, i < cands.length → rng (325 + i) = rng' (325 + i)) :
    contactStations st rng cands = contactStations st rng' cands := by
  unfold contactStations
  have hfilter : cands.enum.filter
      (fun p => uniformRandBool (1 / (1 + 0.02 * (p.2.2 * p.2.2))) rng (325 + p.1)) =
      cands.enum.filter
      (fun p => uniformRandBool (1 / (1 + 0.02 * (p.2.2 * p.2.2))) rng' (325 + p.1)) := by
    apply List.filter_congr
    intro p hp
    have hget : cands[p.1]? = some p.2 := List.mem_enum_iff_getElem?.mp hp
    have hlt : p.1 < cands.length := by
      have := List.getElem?_eq_some.mp hget
      exact this.1
    simp only [uniformRandBool, h p.1 hlt]
  rw [hfilter]

/-- Every station in the contact-station output has the offering station's
faction. -/
theorem contactStations_faction (st : OrbitalFacilityModel) (rng : Nat → ℚ)
    (cands : List (OrbitalFacilityModel × ℚ)) (x : OrbitalFacilityModel × ℚ)
    (hx : x ∈ contactStations st rng cands) : x.1.faction = st.faction := by
  unfold contactStations at hx
  rw [List.mem_insertionSort] at hx
  have := (List.mem_filter.mp hx).2
  simpa using this

/-- The contact-station output is sorted ascending by distance. -/
theorem contactStations_sorted (st : OrbitalFacilityModel) (rng : Nat → ℚ)
    (cands : List (OrbitalFacilityModel × ℚ)) :
    List.Sorted (fun a b : OrbitalFacilityModel × ℚ => a.2 ≤ b.2)
      (contactStations st rng cands) := by
  unfold contactStations
  exact List.sorted_insertionSort (fun a b : OrbitalFacilityModel × ℚ => a.2 ≤ b.2) _

/-- Up to the final ascending sort, the contact-station output is exactly the
candidate list pruned by the per-candidate draw with acceptance probability
`acceptProbability distance` at step `325 + index`, restricted to
same-faction stations. -/
theorem contactStations_perm (st : OrbitalFacilityModel) (rng : Nat → ℚ)
    (cands : List (OrbitalFacilityModel × ℚ)) :
    (contactStations st rng cands).Perm
      (((cands.enum.filter
          (fun p => uniformRandBool (acceptProbability p.2.2) rng (325 + p.1))).map
        Prod.snd).filter (fun p => p.1.faction == st.faction)) := by
  unfold contactStations
  exact List.perm_insertionSort (fun a b : OrbitalFacilityModel × ℚ => a.2 ≤ b.2) _

/-! ### Claim theorems -/

/-- C1: for every `MissionFlyByNode` whose state is `CLOSE_ENOUGH`, every
subsequent `updateState` call, with any context whatsoever (wrong system,
player far away), leaves the node unchanged — so the state stays
`CLOSE_ENOUGH` — and `isCompleted()` remains true: completion is sticky and
never regresses. -/
theorem flyBy_closeEnough_sticky (n : MissionFlyByNode) (ctx : MissionContext)
    (h : n.state = FlyByState.CLOSE_ENOUGH) :
    n.updateState ctx = Except.ok n ∧ n.isCompleted = true :=
  ⟨MissionFlyByNode.updateState_completed n ctx h,
   by simp [MissionFlyByNode.isCompleted, h]⟩

/-- Witness for C1: a completed node updated in a far-away wrong system stays
unchanged and completed. -/
theorem flyBy_closeEnough_sticky_witness :
    nodeClose.state = FlyByState.CLOSE_ENOUGH ∧
    (nodeClose.updateState ctxWrong = Except.ok nodeClose ∧ nodeClose.isCompleted = true) :=
  ⟨rfl, flyBy_closeEnough_sticky nodeClose ctxWrong rfl⟩

/-- Counterexample for C5: an already-completed node updated in a wrong
system (coordinates structurally different from the target's) keeps state
`CLOSE_ENOUGH`; `updateState` does not yield `NOT_IN_SYSTEM` for every node
in a wrong-system context, contrary to the claim. -/
theorem flyBy_wrongSystem_counterexample :
    starSystemCoordinatesEquals ctxWrong.currentSystem.model.coordinates
      nodeClose.targetSystemCoordinates = false ∧
    nodeClose.updateState ctxWrong = Except.ok nodeClose ∧
    nodeClose.state = FlyByState.CLOSE_ENOUGH ∧
    FlyByState.CLOSE_ENOUGH ≠ FlyByState.NOT_IN_SYSTEM :=
  ⟨rfl, MissionFlyByNode.updateState_completed nodeClose ctxWrong rfl, rfl, by decide⟩

/-- C5 (amended): for every *not-yet-completed* `MissionFlyByNode` and every
context whose current system coordinates differ structurally from the node's
target system coordinates, `updateState` yields state `NOT_IN_SYSTEM`,
regardless of the player's distance to anything. -/
theorem flyBy_wrongSystem_notInSystem (n : MissionFlyByNode) (ctx : MissionContext)
    (hn : n.state ≠ FlyByState.CLOSE_ENOUGH)
    (hsys : starSystemCoordinatesEquals ctx.currentSystem.model.coordinates
        n.targetSystemCoordinates = false) :
    n.updateState ctx = Except.ok (n.setState FlyByState.NOT_IN_SYSTEM) ∧
    (n.setState FlyByState.NOT_IN_SYSTEM).state = FlyByState.NOT_IN_SYSTEM :=
  ⟨MissionFlyByNode.updateState_wrongSystem n ctx hn hsys, rfl⟩

/-- Witness for amended C5: a fresh node updated in a wrong system lands in
`NOT_IN_SYSTEM`. -/
theorem flyBy_wrongSystem_notInSystem_witness :
    (MissionFlyByNode.new idA).state ≠ FlyByState.CLOSE_ENOUGH ∧
    starSystemCoordinatesEquals ctxWrong.currentSystem.model.coordinates
      (MissionFlyByNode.new idA).targetSystemCoordinates = false ∧
    ((MissionFlyByNode.new idA).updateState ctxWrong =
        Except.ok ((MissionFlyByNode.new idA).setState FlyByState.NOT_IN_SYSTEM) ∧
      ((MissionFlyByNode.new idA).setState FlyByState.NOT_IN_SYSTEM).state =
        FlyByState.NOT_IN_SYSTEM) :=
  ⟨by decide, rfl,
   flyBy_wrongSystem_notInSystem (MissionFlyByNode.new idA) ctxWrong (by decide) rfl⟩

/-- Counterexample for C7: for an already-completed node, `updateState` in
the correct system with an unresolvable target object returns normally
(short-circuit on completion) instead of raising an error, contrary to the
claim's universal statement. -/
theorem flyBy_missingObject_counterexample :
    starSystemCoordinatesEquals ctxEmptyA.currentSystem.model.coordinates
      nodeClose.targetSystemCoordinates = true ∧
    getObjectBySystemId nodeClose.objectId ctxEmptyA.currentSystem = none ∧
    nodeClose.updateState ctxEmptyA = Except.ok nodeClose :=
  ⟨rfl, rfl, MissionFlyByNode.updateState_completed nodeClose ctxEmptyA rfl⟩

/-- C7 (amended): in a context whose coordinates match the target, a
*not-yet-completed* node whose target object cannot be resolved makes
`updateState` throw an unrecoverable error; in every other in-system case —
object resolvable, or node already completed — `updateState` never fails. -/
theorem flyBy_inSystem_error_contract (n : MissionFlyByNode) (ctx : MissionContext)
    (hsys : starSystemCoordinatesEquals ctx.currentSystem.model.coordinates
        n.targetSystemCoordinates = true) :
    (n.state ≠ FlyByState.CLOSE_ENOUGH →
      getObjectBySystemId n.objectId ctx.currentSystem = none →
      n.updateState ctx = Except.error "Could not find object with ID") ∧
    (∀ obj, getObjectBySystemId n.objectId ctx.currentSystem = some obj →
      (n.updateState ctx).isOk = true) ∧
    (n.state = FlyByState.CLOSE_ENOUGH → (n.updateState ctx).isOk = true) := by
  refine ⟨fun h1 h3 => MissionFlyByNode.updateState_missingObject n ctx h1 hsys h3, ?_, ?_⟩
  · intro obj hobj
    by_cases h1 : n.state = FlyByState.CLOSE_ENOUGH
    · rw [MissionFlyByNode.updateState_completed n ctx h1]; rfl
    · rw [MissionFlyByNode.updateState_found n ctx obj h1 hsys hobj]; rfl
  · intro h1
    rw [MissionFlyByNode.updateState_completed n ctx h1]; rfl

/-- Witness for amended C7: a fresh node in the correct system throws when
the system holds no objects, and succeeds when the target star is present. -/
theorem flyBy_inSystem_error_contract_witness :
    (MissionFlyByNode.new idA).updateState ctxEmptyA =
      Except.error "Could not find object with ID" ∧
    ((MissionFlyByNode.new idA).updateState ctx29).isOk = true :=
  ⟨(flyBy_inSystem_error_contract (MissionFlyByNode.new idA) ctxEmptyA rfl).1 (by decide) rfl,
   (flyBy_inSystem_error_contract (MissionFlyByNode.new idA) ctx29 rfl).2.1 starObj rfl⟩

/-- C9: `equals` is reflexive on fly-by nodes regardless of their mutable
state, distinguishes any two structurally different object ids (in
particular ids sharing system coordinates but differing in local object
path), and is false against any other mission node variant. -/
theorem flyBy_equals_contract :
    (∀ n : MissionFlyByNode, n.equals (MissionNode.flyBy n) = true) ∧
    (∀ n m : MissionFlyByNode, n.objectId ≠ m.objectId →
      n.equals (MissionNode.flyBy m) = false) ∧
    (∀ (n : MissionFlyByNode) (tag : Nat), n.equals (MissionNode.otherVariant tag) = false) := by
  refine ⟨fun n => ?_, fun n m h => ?_, fun n tag => rfl⟩
  · simp [MissionFlyByNode.equals, universeObjectIdEquals]
  · simp [MissionFlyByNode.equals, universeObjectIdEquals, h]

/-- Witness for C9: `idA` and `idB` share system coordinates but differ in
the local path; the respective nodes are not `equals`, each node equals
itself, and no fly-by node equals another variant. -/
theorem flyBy_equals_contract_witness :
    idA.starSystemCoordinates = idB.starSystemCoordinates ∧
    idA ≠ idB ∧
    (MissionFlyByNode.new idA).equals (MissionNode.flyBy (MissionFlyByNode.new idA)) = true ∧
    (MissionFlyByNode.new idA).equals (MissionNode.flyBy (MissionFlyByNode.new idB)) = false ∧
    (MissionFlyByNode.new idA).equals (MissionNode.otherVariant 0) = false :=
  ⟨rfl, by decide,
   flyBy_equals_contract.1 (MissionFlyByNode.new idA),
   flyBy_equals_contract.2.1 (MissionFlyByNode.new idA) (MissionFlyByNode.new idB) (by decide),
   flyBy_equals_contract.2.2 (MissionFlyByNode.new idA) 0⟩

/-- Counterexample for C2: with target type STAR and bounding radius `R = 1`,
a player at distance `2.9 × R` in the correct system drives the node to
`CLOSE_ENOUGH` (since `distance < 3 × R`), not to `TOO_FAR_IN_SYSTEM` as the
claim states — the claim has the two outcomes swapped. -/
theorem flyBy_star_boundary_counterexample :
    starObj.model.type = OrbitalObjectType.STAR ∧
    starObj.boundingRadius = 1 ∧
    getObjectBySystemId (MissionFlyByNode.new idA).objectId ctx29.currentSystem = some starObj ∧
    Vector3.DistanceSquared ctx29.playerPosition starObj.absolutePosition = (2.9 * 1) ^ 2 ∧
    (MissionFlyByNode.new idA).updateState ctx29 =
      Except.ok ((MissionFlyByNode.new idA).setState FlyByState.CLOSE_ENOUGH) ∧
    FlyByState.CLOSE_ENOUGH ≠ FlyByState.TOO_FAR_IN_SYSTEM := by
  refine ⟨rfl, rfl, rfl, ?_, ?_, by decide⟩
  · norm_num [Vector3.DistanceSquared, ctx29, starObj, sysA, idA, coordsA]
  · rw [MissionFlyByNode.updateState_found (MissionFlyByNode.new idA) ctx29 starObj
      (by decide) rfl rfl]
    norm_num [Vector3.DistanceSquared, ctx29, starObj, sysA, idA, coordsA, thresholdMultiplier]

/-- C2 (amended): for a not-yet-completed node targeting a STAR of bounding
radius `R > 0`, in the correct system, a player at distance `2.9 × R` yields
`CLOSE_ENOUGH` and a player at distance `3.1 × R` yields `TOO_FAR_IN_SYSTEM`
— the threshold boundary lies at `3 × R`, with distances below it close
enough.  (Distances enter as squares, see the file comment.) -/
theorem flyBy_star_threshold_boundary (n : MissionFlyByNode) (ctxNear ctxFar : MissionContext)
    (obj : SystemObject) (R : ℚ) (hR : 0 < R)
    (hn : n.state ≠ FlyByState.CLOSE_ENOUGH)
    (htype : obj.model.type = OrbitalObjectType.STAR)
    (hrad : obj.boundingRadius = R)
    (hsysN : starSystemCoordinatesEquals ctxNear.currentSystem.model.coordinates
        n.targetSystemCoordinates = true)
    (hobjN : getObjectBySystemId n.objectId ctxNear.currentSystem = some obj)
    (hdN : Vector3.DistanceSquared ctxNear.playerPosition obj.absolutePosition = (2.9 * R) ^ 2)
    (hsysF : starSystemCoordinatesEquals ctxFar.currentSystem.model.coordinates
        n.targetSystemCoordinates = true)
    (hobjF : getObjectBySystemId n.objectId ctxFar.currentSystem = some obj)
    (hdF : Vector3.DistanceSquared ctxFar.playerPosition obj.absolutePosition = (3.1 * R) ^ 2) :
    n.updateState ctxNear = Except.ok (n.setState FlyByState.CLOSE_ENOUGH) ∧
    n.updateState ctxFar = Except.ok (n.setState FlyByState.TOO_FAR_IN_SYSTEM) := by
  constructor
  · rw [MissionFlyByNode.updateState_found n ctxNear obj hn hsysN hobjN, hdN, htype, hrad]
    rw [if_pos (by simp [thresholdMultiplier]; nlinarith)]
  · rw [MissionFlyByNode.updateState_found n ctxFar obj hn hsysF hobjF, hdF, htype, hrad]
    rw [if_neg (by simp [thresholdMultiplier]; nlinarith)]

/-- Witness for amended C2: the fresh node targeting the example star with
`R = 1` at distances `2.9` and `3.1`. -/
theorem flyBy_star_threshold_boundary_witness :
    (0 : ℚ) < 1 ∧
    (MissionFlyByNode.new idA).updateState ctx29 =
      Except.ok ((MissionFlyByNode.new idA).setState FlyByState.CLOSE_ENOUGH) ∧
    (MissionFlyByNode.new idA).updateState ctx31 =
      Except.ok ((MissionFlyByNode.new idA).setState FlyByState.TOO_FAR_IN_SYSTEM) :=
  ⟨by norm_num,
   flyBy_star_threshold_boundary (MissionFlyByNode.new idA) ctx29 ctx31 starObj 1
     (by norm_num) (by decide) rfl rfl rfl rfl
     (by norm_num [Vector3.DistanceSquared, ctx29, starObj, sysA, idA, coordsA])
     rfl rfl
     (by norm_num [Vector3.DistanceSquared, ctx31, starObj, sysA, idA, coordsA])⟩

/-- C3: whenever `updateState` reaches the distance comparison (not
completed, correct system, object resolved), the threshold is the target's
bounding radius times a multiplier depending only on the target's object
type: 3 for STAR, TELLURIC_PLANET, TELLURIC_SATELLITE, GAS_PLANET,
MANDELBULB, JULIA_SET, SPACE_STATION, SPACE_ELEVATOR; 50 for NEUTRON_STAR;
10 for BLACK_HOLE; 1 for every other object type. -/
theorem flyBy_threshold_table (n : MissionFlyByNode) (ctx : MissionContext) (obj : SystemObject)
    (hn : n.state ≠ FlyByState.CLOSE_ENOUGH)
    (hsys : starSystemCoordinatesEquals ctx.currentSystem.model.coordinates
        n.targetSystemCoordinates = true)
    (hobj : getObjectBySystemId n.objectId ctx.currentSystem = some obj) :
    n.updateState ctx = Except.ok (n.setState
      (if Vector3.DistanceSquared ctx.playerPosition obj.absolutePosition <
          (obj.boundingRadius * thresholdMultiplier obj.model.type) ^ 2
        then FlyByState.CLOSE_ENOUGH else FlyByState.TOO_FAR_IN_SYSTEM)) ∧
    thresholdMultiplier OrbitalObjectType.STAR = 3 ∧
    thresholdMultiplier OrbitalObjectType.TELLURIC_PLANET = 3 ∧
    thresholdMultiplier OrbitalObjectType.TELLURIC_SATELLITE = 3 ∧
    thresholdMultiplier OrbitalObjectType.GAS_PLANET = 3 ∧
    thresholdMultiplier OrbitalObjectType.MANDELBULB = 3 ∧
    thresholdMultiplier OrbitalObjectType.JULIA_SET = 3 ∧
    thresholdMultiplier OrbitalObjectType.SPACE_STATION = 3 ∧
    thresholdMultiplier OrbitalObjectType.SPACE_ELEVATOR = 3 ∧
    thresholdMultiplier OrbitalObjectType.NEUTRON_STAR = 50 ∧
    thresholdMultiplier OrbitalObjectType.BLACK_HOLE = 10 ∧
    (∀ tag : Nat, thresholdMultiplier (OrbitalObjectType.OTHER tag) = 1) :=
  ⟨MissionFlyByNode.updateState_found n ctx obj hn hsys hobj,
   rfl, rfl, rfl, rfl, rfl, rfl, rfl, rfl, rfl, rfl, fun _ => rfl⟩

/-- Witness for C3: the fresh node updated next to the example star, and the
neutron-star table entry. -/
theorem flyBy_threshold_table_witness :
    (MissionFlyByNode.new idA).updateState ctx29 = Except.ok ((MissionFlyByNode.new idA).setState
      (if Vector3.DistanceSquared ctx29.playerPosition starObj.absolutePosition <
          (starObj.boundingRadius * thresholdMultiplier starObj.model.type) ^ 2
        then FlyByState.CLOSE_ENOUGH else FlyByState.TOO_FAR_IN_SYSTEM)) ∧
    thresholdMultiplier OrbitalObjectType.NEUTRON_STAR = 50 :=
  ⟨(flyBy_threshold_table (MissionFlyByNode.new idA) ctx29 starObj (by decide) rfl rfl).1,
   (flyBy_threshold_table (MissionFlyByNode.new idA) ctx29 starObj
     (by decide) rfl rfl).2.2.2.2.2.2.2.2.2.1⟩

/-- Counterexample for C4: a record of fly-by shape with a nonempty
`children` list does not round-trip exactly — `serialize` always writes
`children: []`, so the reserialized record differs from the original in its
`children` field. -/
theorem flyBy_roundTrip_counterexample :
    recordWithChild.type = MissionNodeType.FLY_BY ∧
    (deserializeFlyBy recordWithChild).serialize ≠ recordWithChild := by
  refine ⟨rfl, ?_⟩
  intro h
  have h' : ([] : List MissionNodeSerialized) = [recordNoChildren] :=
    congrArg MissionNodeSerialized.children h
  exact absurd h' (by simp)

/-- C4 (amended): serialization round-trips exactly, partial progress
included, for every fly-by record whose `children` list is empty — which is
every record `serialize` produces — and for every record of fly-by shape,
`deserialize (serialize (deserialize m)) = deserialize m`. -/
theorem flyBy_roundTrip (m : MissionNodeSerialized) :
    (m.type = MissionNodeType.FLY_BY → m.children = [] →
      (deserializeFlyBy m).serialize = m) ∧
    deserializeFlyBy ((deserializeFlyBy m).serialize) = deserializeFlyBy m := by
  obtain ⟨t, c, o, s⟩ := m
  exact ⟨fun ht hc => by
    simp only [MissionNodeSerialized.type] at ht
    simp only [MissionNodeSerialized.children] at hc
    subst ht; subst hc; rfl,
   rfl⟩

/-- Witness for amended C4: a concrete mid-progress record round-trips. -/
theorem flyBy_roundTrip_witness :
    (deserializeFlyBy recordNoChildren).serialize = recordNoChildren ∧
    deserializeFlyBy ((deserializeFlyBy recordNoChildren).serialize) =
      deserializeFlyBy recordNoChildren :=
  ⟨(flyBy_roundTrip recordNoChildren).1 rfl rfl, (flyBy_roundTrip recordNoChildren).2⟩

/-- C8: `updateState` is idempotent for a fixed context — after a successful
call, calling again with the same unchanged context returns the node
unchanged.  (In this embedding `updateState` is a pure function of the node
and the context, so it touches no state outside the node by construction.) -/
theorem flyBy_updateState_idempotent (n : MissionFlyByNode) (ctx : MissionContext)
    (n' : MissionFlyByNode) (h : n.updateState ctx = Except.ok n') :
    n'.updateState ctx = Except.ok n' := by
  by_cases h1 : n.state = FlyByState.CLOSE_ENOUGH
  · rw [MissionFlyByNode.updateState_completed n ctx h1] at h
    injection h with h; subst h
    exact MissionFlyByNode.updateState_completed n ctx h1
  · by_cases h2 : starSystemCoordinatesEquals ctx.currentSystem.model.coordinates
        n.targetSystemCoordinates = true
    · cases hobj : getObjectBySystemId n.objectId ctx.currentSystem with
      | none =>
        rw [MissionFlyByNode.updateState_missingObject n ctx h1 h2 hobj] at h
        exact absurd h (by simp)
      | some obj =>
        rw [MissionFlyByNode.updateState_found n ctx obj h1 h2 hobj] at h
        injection h with h; subst h
        by_cases hd : Vector3.DistanceSquared ctx.playerPosition obj.absolutePosition <
            (obj.boundingRadius * thresholdMultiplier obj.model.type) ^ 2
        · rw [if_pos hd]
          exact MissionFlyByNode.updateState_completed _ ctx rfl
        · rw [if_neg hd]
          have hne : (n.setState FlyByState.TOO_FAR_IN_SYSTEM).state ≠
              FlyByState.CLOSE_ENOUGH := by
            rw [MissionFlyByNode.setState_state]; decide
          rw [MissionFlyByNode.updateState_found (n.setState FlyByState.TOO_FAR_IN_SYSTEM) ctx obj
            hne h2 hobj]
          rw [if_neg hd]; rfl
    · have h2' : starSystemCoordinatesEquals ctx.currentSystem.model.coordinates
          n.targetSystemCoordinates = false := by simpa using h2
      rw [MissionFlyByNode.updateState_wrongSystem n ctx h1 h2'] at h
      injection h with h; subst h
      have hne : (n.setState FlyByState.NOT_IN_SYSTEM).state ≠ FlyByState.CLOSE_ENOUGH := by
        rw [MissionFlyByNode.setState_state]; decide
      rw [MissionFlyByNode.updateState_wrongSystem (n.setState FlyByState.NOT_IN_SYSTEM) ctx
        hne h2']
      rfl

/-- Witness for C8: updating the fresh node next to the star reaches
`CLOSE_ENOUGH`; a second call with the same context returns it unchanged. -/
theorem flyBy_updateState_idempotent_witness :
    (MissionFlyByNode.new idA).updateState ctx29 =
      Except.ok ((MissionFlyByNode.new idA).setState FlyByState.CLOSE_ENOUGH) ∧
    ((MissionFlyByNode.new idA).setState FlyByState.CLOSE_ENOUGH).updateState ctx29 =
      Except.ok ((MissionFlyByNode.new idA).setState FlyByState.CLOSE_ENOUGH) := by
  have h : (MissionFlyByNode.new idA).updateState ctx29 =
      Except.ok ((MissionFlyByNode.new idA).setState FlyByState.CLOSE_ENOUGH) := by
    rw [MissionFlyByNode.updateState_found (MissionFlyByNode.new idA) ctx29 starObj
      (by decide) rfl rfl]
    norm_num [Vector3.DistanceSquared, ctx29, starObj, sysA, idA, coordsA, thresholdMultiplier]
  exact ⟨h, flyBy_updateState_idempotent (MissionFlyByNode.new idA) ctx29 _ h⟩

/-- C10: a freshly constructed node starts in `NOT_IN_SYSTEM`, not completed,
with its `objectId` and `targetSystemCoordinates` fixed from the constructor
argument and `children: []` on serialization; `setState` and (successful)
`updateState` modify only the `state` field; and on every node reachable
through the public interface, `targetSystemCoordinates` equals
`objectId.starSystemCoordinates`, `getTargetSystems` returns exactly that
one-element list, and `serialize` emits `{FLY_BY, [], objectId, state}`.
(Observers — `isCompleted`, `equals`, `getTargetSystems`, `serialize` — are
pure functions in this embedding, so they leave the node unchanged by
construction.) -/
theorem flyBy_frame_conditions :
    (∀ objectId : UniverseObjectId,
      (MissionFlyByNode.new objectId).state = FlyByState.NOT_IN_SYSTEM ∧
      (MissionFlyByNode.new objectId).isCompleted = false ∧
      (MissionFlyByNode.new objectId).objectId = objectId ∧
      (MissionFlyByNode.new objectId).targetSystemCoordinates =
        objectId.starSystemCoordinates ∧
      (MissionFlyByNode.new objectId).serialize = MissionNodeSerialized.mk
        MissionNodeType.FLY_BY [] objectId FlyByState.NOT_IN_SYSTEM) ∧
    (∀ (n : MissionFlyByNode) (s : FlyByState),
      (n.setState s).state = s ∧
      (n.setState s).objectId = n.objectId ∧
      (n.setState s).targetSystemCoordinates = n.targetSystemCoordinates) ∧
    (∀ (n : MissionFlyByNode) (ctx : MissionContext) (n' : MissionFlyByNode),
      n.updateState ctx = Except.ok n' →
      n'.objectId = n.objectId ∧
      n'.targetSystemCoordinates = n.targetSystemCoordinates) ∧
    (∀ n : MissionFlyByNode, MissionFlyByNode.Reachable n →
      n.targetSystemCoordinates = n.objectId.starSystemCoordinates ∧
      n.getTargetSystems = [n.objectId.starSystemCoordinates] ∧
      n.serialize = MissionNodeSerialized.mk MissionNodeType.FLY_BY [] n.objectId n.state) := by
  refine ⟨fun objectId => ⟨rfl, rfl, rfl, rfl, rfl⟩,
    fun n s => ⟨rfl, rfl, rfl⟩,
    fun n ctx n' h => MissionFlyByNode.updateState_ok_fields n ctx n' h,
    fun n hn => ?_⟩
  have key : n.targetSystemCoordinates = n.objectId.starSystemCoordinates := by
    induction hn with
    | construct objectId => rfl
    | set m s hm ih => exact ih
    | update m ctx m' hm h ih =>
      obtain ⟨ho, ht⟩ := MissionFlyByNode.updateState_ok_fields m ctx m' h
      rw [ho, ht]; exact ih
  exact ⟨key, by rw [MissionFlyByNode.getTargetSystems, key], rfl⟩

/-- Witness for C10: a constructed-then-mutated node keeps its identity
invariants. -/
theorem flyBy_frame_conditions_witness :
    ((MissionFlyByNode.new idA).setState FlyByState.TOO_FAR_IN_SYSTEM).targetSystemCoordinates =
      ((MissionFlyByNode.new idA).setState
        FlyByState.TOO_FAR_IN_SYSTEM).objectId.starSystemCoordinates ∧
    ((MissionFlyByNode.new idA).setState FlyByState.TOO_FAR_IN_SYSTEM).getTargetSystems =
      [((MissionFlyByNode.new idA).setState
        FlyByState.TOO_FAR_IN_SYSTEM).objectId.starSystemCoordinates] ∧
    ((MissionFlyByNode.new idA).setState FlyByState.TOO_FAR_IN_SYSTEM).serialize =
      MissionNodeSerialized.mk MissionNodeType.FLY_BY []
        ((MissionFlyByNode.new idA).setState FlyByState.TOO_FAR_IN_SYSTEM).objectId
        ((MissionFlyByNode.new idA).setState FlyByState.TOO_FAR_IN_SYSTEM).state :=
  flyBy_frame_conditions.2.2.2 ((MissionFlyByNode.new idA).setState FlyByState.TOO_FAR_IN_SYSTEM)
    (MissionFlyByNode.Reachable.set (MissionFlyByNode.new idA) FlyByState.TOO_FAR_IN_SYSTEM
      (MissionFlyByNode.Reachable.construct idA))

/-- C6: the contact-station selection retains each neighbor-station
candidate at distance `d` by the deterministic draw at step `325 + index`
with acceptance probability `1 / (1 + 0.02 d²)` (so the retained set depends
only on the draws at those steps and is identical across reloads with the
same seed); the acceptance probability is non-increasing in distance, and at
any fixed draw a retained farther candidate implies the nearer one is
retained; the retained set is restricted to stations of the offering
station's faction; and the output list is sorted ascending by distance. -/
theorem contactStations_contract :
    (∀ (st : OrbitalFacilityModel) (rng rng' : Nat → ℚ)
        (cands : List (OrbitalFacilityModel × ℚ)),
      (∀ i, i < cands.length → rng (325 + i) = rng' (325 + i)) →
      contactStations st rng cands = contactStations st rng' cands) ∧
    (∀ (st : OrbitalFacilityModel) (rng : Nat → ℚ) (cands : List (OrbitalFacilityModel × ℚ)),
      (contactStations st rng cands).Perm
        (((cands.enum.filter
            (fun p => uniformRandBool (acceptProbability p.2.2) rng (325 + p.1))).map
          Prod.snd).filter (fun p => p.1.faction == st.faction))) ∧
    (∀ d1 d2 : ℚ, 0 ≤ d1 → d1 < d2 → acceptProbability d2 ≤ acceptProbability d1) ∧
    (∀ (rng : Nat → ℚ) (step : Nat) (d1 d2 : ℚ), 0 ≤ d1 → d1 < d2 →
      uniformRandBool (acceptProbability d2) rng step = true →
      uniformRandBool (acceptProbability d1) rng step = true) ∧
    (∀ (st : OrbitalFacilityModel) (rng : Nat → ℚ) (cands : List (OrbitalFacilityModel × ℚ))
        (x : OrbitalFacilityModel × ℚ),
      x ∈ contactStations st rng cands → x.1.faction = st.faction) ∧
    (∀ (st : OrbitalFacilityModel) (rng : Nat → ℚ) (cands : List (OrbitalFacilityModel × ℚ)),
      List.Sorted (fun a b : OrbitalFacilityModel × ℚ => a.2 ≤ b.2)
        (contactStations st rng cands)) := by
  refine ⟨contactStations_rng_congr, contactStations_perm, acceptProbability_antitone, ?_,
    contactStations_faction, contactStations_sorted⟩
  intro rng step d1 d2 h0 h12 h
  simp only [uniformRandBool, decide_eq_true_eq] at h ⊢
  exact lt_of_lt_of_le h (acceptProbability_antitone d1 d2 h0 h12)

/-- Witness for C6: concrete stations, draws and distances exercising every
part of the contract. -/
theorem contactStations_contract_witness :
    contactStations stHome rngHalf exCands = contactStations stHome rngHalfLate exCands ∧
    acceptProbability 2 ≤ acceptProbability 1 ∧
    uniformRandBool (acceptProbability 1) rngHalf 325 = true ∧
    (stSame, (1 : ℚ)).1.faction = stHome.faction ∧
    List.Sorted (fun a b : OrbitalFacilityModel × ℚ => a.2 ≤ b.2)
      (contactStations stHome rngHalf exCands) := by
  have hmem : (stSame, (1 : ℚ)) ∈ contactStations stHome rngHalf exCands := by
    norm_num [contactStations, exCands, uniformRandBool, rngHalf, stHome, stSame, stOther,
      List.insertionSort, List.filter]
  refine ⟨contactStations_contract.1 stHome rngHalf rngHalfLate exCands ?_,
    contactStations_contract.2.2.1 1 2 (by norm_num) (by norm_num),
    contactStations_contract.2.2.2.1 rngHalf 325 1 2 (by norm_num) (by norm_num) ?_,
    contactStations_contract.2.2.2.2.1 stHome rngHalf exCands (stSame, 1) hmem,
    contactStations_contract.2.2.2.2.2 stHome rngHalf exCands⟩
  · intro i hi
    simp only [rngHalf, rngHalfLate]
    rw [if_neg (by omega)]
  · simp only [uniformRandBool, acceptProbability, rngHalf, decide_eq_true_eq]
    norm_num

end CosmosJourneyer
